import Mathlib

/-!
Verification of the keystroke-dynamics scoring engine of the
`test_keystroke` repository.

The Python sources are shallowly embedded over exact rationals (`ℚ`).
Floating-point numerals of the source become the corresponding rational
constants.  Calls into external libraries (`sklearn`, `numpy` random
draws, `exp`, `sqrt`) are abstracted as explicit function parameters or
as lists of draws, so every definition remains executable; the
properties proved never depend on values those oracles could not take.
`numpy`'s mean of an empty list (a `NaN` in the original) is `0` here,
which only matters on degenerate inputs noted in the comments.
-/

namespace Keystroke

/-- A 6-dimensional feature vector:
`avg_dwell_time, std_dwell_time, avg_flight_time, std_flight_time,
typing_speed, total_typing_time`. -/
abbrev V : Type := Fin 6 → ℚ

/-- `np.clip x lo hi`. -/
def clip (x lo hi : ℚ) : ℚ := max lo (min x hi)

/-- `np.mean` of a list (population mean; `0` on the empty list, where
numpy would return `NaN`). -/
def listMean (l : List ℚ) : ℚ := l.sum / l.length

/-- `np.min` of a list, with an explicit default for the empty list
(numpy raises there; all uses in the embedded code are on non-empty
lists). -/
def listMin : List ℚ → ℚ
  | [] => 0
  | x :: xs => xs.foldl min x

/-- Column mean `np.mean(X, axis=0)` of a list of feature vectors. -/
def colMean (X : List V) (i : Fin 6) : ℚ := listMean (X.map (fun r => r i))

/-- Column population variance, the square of `np.std(X, axis=0)`
(`ddof = 0`). -/
def colVar (X : List V) (i : Fin 6) : ℚ :=
  listMean (X.map (fun r => (r i - colMean X i) ^ 2))

/-- Squared Euclidean distance between two feature vectors. -/
def sqDist (a b : V) : ℚ := ∑ i : Fin 6, (a i - b i) ^ 2

/-- A concrete square-root oracle used to instantiate witnesses and
counterexamples: exact on rationals whose numerator and denominator are
perfect squares (all concrete inputs below are of this form, where the
float `sqrt` of the source is exact as well). -/
def qsqrt (q : ℚ) : ℚ := (Nat.sqrt q.num.toNat : ℚ) / (Nat.sqrt q.den : ℚ)

/-! ## MetricsEvaluator (`system_evaluator.py`, `analyze_system`)

For each threshold of the sweep the evaluator counts
`tp = #{genuine score ≥ t}`, `fn = |genuine| - tp`,
`fp = #{impostor score ≥ t}` and reports
`far = fp/|impostors| * 100`, `frr = fn/|genuine| * 100`. -/

/-- `tp` of `analyze_system`: genuine-labeled attempts with `score ≥ t`. -/
def evalTP (legitimate : List ℚ) (t : ℚ) : ℕ :=
  legitimate.countP (fun score => t ≤ score)

/-- `fp` of `analyze_system`: impostor-labeled attempts with `score ≥ t`. -/
def evalFP (impostors : List ℚ) (t : ℚ) : ℕ :=
  impostors.countP (fun score => t ≤ score)

/-- `fn` of `analyze_system`: `len(legitimate) - tp`. -/
def evalFN (legitimate : List ℚ) (t : ℚ) : ℕ :=
  legitimate.length - evalTP legitimate t

/-- `far = (fp / len(all_impostors)) * 100` (the code guards the empty
class, returning `0`). -/
def evalFAR (impostors : List ℚ) (t : ℚ) : ℚ :=
  if impostors.isEmpty then 0
  else ((evalFP impostors t : ℚ) / (impostors.length : ℚ)) * 100

/-- `frr = (fn / len(legitimate)) * 100` (the code guards the empty
class, returning `0`). -/
def evalFRR (legitimate : List ℚ) (t : ℚ) : ℚ :=
  if legitimate.isEmpty then 0
  else ((evalFN legitimate t : ℚ) / (legitimate.length : ℚ)) * 100

/-! ## The fusion authenticator (`ml/knn_classifier.py`, `KNNAuthenticator`)

`authenticate` fuses three sub-scores.  The fitted sklearn classifier is
abstracted by `raw_prob` (its `predict_proba` output for class `1.0`)
and `has_genuine_class` (`len(probabilities) > 1 and 1.0 in classes_`);
`exp` and `sqrt` of the float code are the explicit parameters `rexp`
and `rsqrt`.  Models coming out of `train` always carry a non-`None`
`training_data`, so that field is a plain list here (the `hasattr`
guards of the source are then always true). -/

/-- The state of a `KNNAuthenticator` object after training or loading. -/
structure KNNModel where
  is_trained : Bool
  training_data : List V
  raw_prob : V → ℚ
  has_genuine_class : Bool
  normalization_stats : Option (V × V)

/-- The per-dimension penalty of `authenticate`'s feature analysis as a
function of the z-score (lines 181-190 of `knn_classifier.py`):
`0` up to `1σ`, `0.05·(z-1)` up to `2σ`, `0.05 + 0.1·(z-2)` up to `3σ`,
`0.15 + 0.15·min(z-3, 2)` beyond, all capped by `min(penalty, 0.3)`. -/
def penaltyOfZ (z : ℚ) : ℚ :=
  let penalty : ℚ :=
    if z ≤ 1 then 0
    else if z ≤ 2 then (1/20) * (z - 1)
    else if z ≤ 3 then 1/20 + (1/10) * (z - 2)
    else 3/20 + (3/20) * min (z - 3) 2
  min penalty (3/10)

/-- All pairwise Euclidean distances `euclidean_distances(X, X)`,
flattened. -/
def pairwiseDists (rsqrt : ℚ → ℚ) (X : List V) : List ℚ :=
  X.flatMap (fun a => X.map (fun b => rsqrt (sqDist a b)))

/-- `mean_train_distance`: the mean of the strictly positive pairwise
training distances when `len(X) > 1`, else the fallback `1.0`. -/
def meanTrainDistance (rsqrt : ℚ → ℚ) (X : List V) : ℚ :=
  if 1 < X.length then listMean ((pairwiseDists rsqrt X).filter (fun d => 0 < d))
  else 1

/-- The denominator of the normalized distance:
`mean_train_distance + 1e-6`. -/
def normDistDenom (rsqrt : ℚ → ℚ) (X : List V) : ℚ :=
  meanTrainDistance rsqrt X + 1 / 1000000

/-- `train_std` as recomputed inside `authenticate`:
`np.std(training_data, axis=0)`. -/
def trainStd (rsqrt : ℚ → ℚ) (X : List V) (i : Fin 6) : ℚ := rsqrt (colVar X i)

/-- The penalty contributed by dimension `i` of the feature analysis:
a z-score against the training mean/std is formed only when
`train_s > 0`; otherwise the penalty is `0`. -/
def dimPenalty (rsqrt : ℚ → ℚ) (X : List V) (features : V) (i : Fin 6) : ℚ :=
  if 0 < trainStd rsqrt X i then
    penaltyOfZ (|features i - colMean X i| / trainStd rsqrt X i)
  else 0

/-- The `feature_score` of `authenticate`:
`max(0.2, 1.0 - np.mean(feature_penalties))`. -/
def featureScore (rsqrt : ℚ → ℚ) (X : List V) (features : V) : ℚ :=
  max (1/5) (1 - (∑ i : Fin 6, dimPenalty rsqrt X features i) / 6)

/-- The `distance_score` of `authenticate`: a sigmoid of the minimum
distance to the training set normalized by `mean_train_distance + 1e-6`,
clipped to `[0.1, 0.9]`. -/
def distanceScore (rsqrt rexp : ℚ → ℚ) (X : List V) (features : V) : ℚ :=
  let min_distance := listMin (X.map (fun x => rsqrt (sqDist features x)))
  let norm_min := min_distance / normDistDenom rsqrt X
  clip (1 / (1 + rexp (norm_min - 3/2))) (1/10) (9/10)

/-- The smoothed `knn_probability`: the raw posterior clipped to
`[0.1, 0.9]` and pulled 20% toward `0.5`; `0.5` when the fitted
classifier lacks the genuine class. -/
def knnProbability (m : KNNModel) (features : V) : ℚ :=
  if m.has_genuine_class then
    1/2 + (clip (m.raw_prob features) (1/10) (9/10) - 1/2) * (4/5)
  else 1/2

/-- The adaptive fusion weights `(knn, distance, features)`, keyed on
the genuine training-set size. -/
def fusionWeights (n : ℕ) : ℚ × ℚ × ℚ :=
  if 30 ≤ n then (2/5, 7/20, 1/4)
  else if 15 ≤ n then (7/20, 2/5, 1/4)
  else (3/10, 1/2, 1/5)

/-- The result of one `KNNAuthenticator.authenticate` call (decision,
final confidence, and the audited sub-scores of `detailed_stats`). -/
structure AuthResult where
  accepted : Bool
  final_confidence : ℚ
  knn_confidence : ℚ
  distance_score : ℚ
  feature_score : ℚ
  weights : ℚ × ℚ × ℚ
  threshold : ℚ
deriving DecidableEq

/-- `KNNAuthenticator.authenticate`; `none` is the untrained early
return `(False, 0.0, {})`. -/
def knnAuthenticate (rsqrt rexp : ℚ → ℚ) (m : KNNModel) (features : V)
    (threshold : ℚ) : Option AuthResult :=
  if m.is_trained = false then none
  else
    let knn_probability := knnProbability m features
    let dist_score := distanceScore rsqrt rexp m.training_data features
    let feat_score := featureScore rsqrt m.training_data features
    let w := fusionWeights m.training_data.length
    let final_probability :=
      clip (w.1 * knn_probability + w.2.1 * dist_score + w.2.2 * feat_score)
        (1/20) (19/20)
    some
      { accepted := decide (threshold ≤ final_probability)
        final_confidence := final_probability
        knn_confidence := knn_probability
        distance_score := dist_score
        feature_score := feat_score
        weights := w
        threshold := threshold }

/-- `accepted` of an `authenticate` result (`False` on the untrained
early return). -/
def acceptedOf (o : Option AuthResult) : Bool := o.elim false (·.accepted)

/-- `final_confidence` of an `authenticate` result (`0.0` on the
untrained early return). -/
def confidenceOf (o : Option AuthResult) : ℚ := o.elim 0 (·.final_confidence)

/-- `feature_score` of an `authenticate` result (`0` on the untrained
early return, where the source returns no stats at all). -/
def featureScoreOf (o : Option AuthResult) : ℚ := o.elim 0 (·.feature_score)

/-! ## The enhanced model (`ml/enhanced_model_trainer.py`,
`predict_with_confidence`)

The persisted enhanced model is a fitted `StandardScaler` plus a fitted
`KNeighborsClassifier`.  The classifier is embedded concretely: the
fitted points with their `0/1` labels, `n_neighbors`, and the weighting
scheme.  `kneighbors` orders by Euclidean distance, which coincides with
ordering by squared distance (`sqrt` is monotone), so neighbor selection
is done on exact squared distances; concrete instances below have no
distance ties, making the selection independent of tie-breaking.
`predict` is `classes_[argmax(predict_proba)]`, i.e. class `1.0` exactly
when its posterior exceeds `1/2` (ties go to the first class, `0.0`). -/

/-- The persisted state of an `EnhancedModelTrainer` ready to predict. -/
structure EnhancedModel where
  scaler_mean : V
  scaler_scale : V
  points : List V
  labels : List ℚ
  n_neighbors : ℕ
  uniform_weights : Bool
  two_classes : Bool

/-- `StandardScaler.transform`: `(x - mean) / scale`, per dimension. -/
def scalerTransform (m : EnhancedModel) (f : V) : V :=
  fun i => (f i - m.scaler_mean i) / m.scaler_scale i

/-- Insert into a list sorted by a rational key (stable). -/
def insertByKey (key : α → ℚ) (x : α) : List α → List α
  | [] => [x]
  | y :: ys => if key x < key y then x :: y :: ys else y :: insertByKey key x ys

/-- Sort by a rational key (insertion sort, stable). -/
def sortByKey (key : α → ℚ) : List α → List α
  | [] => []
  | x :: xs => insertByKey key x (sortByKey key xs)

/-- `kneighbors`: the `n_neighbors` fitted points nearest to `x`
(with their labels), selected by squared Euclidean distance. -/
def kNearest (m : EnhancedModel) (x : V) : List (V × ℚ) :=
  (sortByKey (fun p => sqDist x p.1) (m.points.zip m.labels)).take m.n_neighbors

/-- `predict_proba(x)[class 1.0]`.  Uniform weighting counts neighbor
labels; distance weighting sums `1/dist` vote weights (`rsqrt` is the
float `sqrt`). -/
def probaOne (rsqrt : ℚ → ℚ) (m : EnhancedModel) (x : V) : ℚ :=
  let nb := kNearest m x
  if m.uniform_weights then
    (nb.countP (fun p => p.2 == 1) : ℚ) / (nb.length : ℚ)
  else
    (((nb.filter (fun p => p.2 == 1)).map
        (fun p => 1 / rsqrt (sqDist x p.1))).sum) /
      ((nb.map (fun p => 1 / rsqrt (sqDist x p.1))).sum)

/-- `EnhancedModelTrainer.predict_with_confidence`: the decision is
`bool(prediction)` (the predicted class), and the reported confidence is
`probabilities[1]` when both classes are present, else
`probabilities[0]` (which is `1` for a single-class fit). -/
def predictWithConfidence (rsqrt : ℚ → ℚ) (m : EnhancedModel) (features : V) :
    Bool × ℚ :=
  let x := scalerTransform m features
  if m.two_classes then
    let p1 := probaOne rsqrt m x
    (decide ((1:ℚ)/2 < p1), p1)
  else
    (m.labels.headD 0 == 1, 1)

/-! ## `ml/model_manager.py` and `auth/keystroke_auth.py` -/

/-- `THRESHOLD_ACCURACY` of `config.py`. -/
def THRESHOLD_ACCURACY : ℚ := 3/4

/-- `MIN_TRAINING_SAMPLES` of `config.py`. -/
def MIN_TRAINING_SAMPLES : ℕ := 50

/-- Modelled from the spec: `FeatureExtractor.apply_normalization`
(`ml/feature_extractor.py` is not part of the sources; spec §4.3 defines
the transform as `(x − mean) / scale` with the fitted statistics). -/
def applyNormalization (stats : V × V) (f : V) : V :=
  fun i => (f i - stats.1 i) / stats.2 i

/-- The model dispatched to by `ModelManager.authenticate_user_detailed`. -/
inductive UserModel where
  | basic (m : KNNModel)
  | enhanced (m : EnhancedModel)

/-- `ModelManager.authenticate_user_detailed` for a present model:
an enhanced model answers by `predict_with_confidence` (the reported
`final_confidence` is that confidence and the reported threshold is
`THRESHOLD_ACCURACY`); a basic model normalizes the vector with the
stored stats and calls `authenticate(·, THRESHOLD_ACCURACY)`.
The result is `(is_authenticated, final_confidence)`; `none` is the
`(False, 0.0, {})` return of an untrained basic model. -/
def authenticateUserDetailed (rsqrt rexp : ℚ → ℚ) (model : UserModel)
    (feature_vector : V) : Option (Bool × ℚ) :=
  match model with
  | .enhanced m => some (predictWithConfidence rsqrt m feature_vector)
  | .basic m =>
    let fv := match m.normalization_stats with
      | some ns => applyNormalization ns feature_vector
      | none => feature_vector
    (knnAuthenticate rsqrt rexp m fv THRESHOLD_ACCURACY).map
      (fun r => (r.accepted, r.final_confidence))

/-- The all-zero sentinel feature dict built by `finish_recording` for a
degenerate capture. -/
def zeroFeatures : V := fun _ => 0

/-- What `KeystrokeAuthenticator.finish_recording` does with the
computed features: `calculate_features` (in the external
`models/keystroke_data.py`) is abstracted as the `computed` argument,
`none` standing for an empty dict.  A degenerate result (empty or
all-zero) is replaced by the explicit all-zero dict "for compatibility";
the sample — zero features included — is saved to the DB whenever
`is_training` is set, and the features are returned to the caller.
The boolean records whether the sample was saved as a training sample. -/
def finishRecording (computed : Option V) (is_training : Bool) : V × Bool :=
  let degenerate : Bool :=
    match computed with
    | none => true
    | some f => decide (∀ i, f i = 0)
  let features := if degenerate then zeroFeatures else computed.getD zeroFeatures
  (features, is_training)

/-- `KeystrokeAuthenticator.authenticate`: rejects only untrained users,
then forwards the features unchecked to
`ModelManager.authenticate_user_detailed`.  `none` is the early
"model not trained" return. -/
def keystrokeAuthenticate (rsqrt rexp : ℚ → ℚ) (user_is_trained : Bool)
    (model : UserModel) (keystroke_features : V) : Option (Bool × ℚ) :=
  if user_is_trained = false then none
  else authenticateUserDetailed rsqrt rexp model keystroke_features

/-! ## `ModelManager.train_user_model` (`ml/model_manager.py`) -/

/-- The observable outcome of a `train_user_model` call.  `persisted`
is the model artifact written to disk (`None` when training failed). -/
structure TrainOutcome (M : Type) where
  success : Bool
  accuracy : ℚ
  insufficient_data : Bool
  persisted : Option M
deriving DecidableEq

/-- `ModelManager.train_user_model`: the sample count is checked against
`MIN_TRAINING_SAMPLES` before anything else; on failure the
insufficient-data message is returned and no trainer runs.  The whole
training pipeline behind the guard (enhanced or basic) is abstracted as
`pipeline`. -/
def trainUserModel (samples : List α)
    (pipeline : List α → TrainOutcome M) : TrainOutcome M :=
  if samples.length < MIN_TRAINING_SAMPLES then
    { success := false, accuracy := 0, insufficient_data := true,
      persisted := none }
  else pipeline samples

/-! ## Training data flow (`EnhancedModelTrainer.train_with_validation`
and `SimpleKNNTrainer.train_user_model`)

What matters for the hyperparameter-search claim is which data each
sklearn call is fitted on.  The sklearn searches themselves
(`GridSearchCV`, `cross_val_score`) are abstracted as functions from the
dataset they are given to the selected parameters, and
`train_test_split` as a function producing the (train, test) pair; the
orchestration around them is the repository's own code and is embedded
as written. -/

/-- The data-flow trace of `train_with_validation`: `prepare_training_data`
builds `X`; `perform_cross_validation(X, y)` and (when `len(X) ≥ 30`)
`hyperparameter_optimization(X, y)` are both given the full `X`;
`detailed_evaluation(X, y)` alone splits `X` into train/test
(`test_size=0.3`) and fits/evaluates the final model.  The call fails
early when `len(X) < 20`. -/
structure EnhancedTrace (D P : Type) where
  cv_data : List D
  grid_data : Option (List D)
  eval_train : List D
  eval_test : List D
  best_params : P
  final_accuracy : ℚ
deriving DecidableEq

/-- `EnhancedModelTrainer.train_with_validation` over the full dataset
`X` (rows already labeled): `none` is the `len(X) < 20` failure return.
`cvSelect` abstracts `perform_cross_validation` (its selected `k`),
`gridSelect` abstracts `GridSearchCV.fit(...)` (its `best_params_`,
which override the cross-validation choice), `split` abstracts
`train_test_split(X, test_size=0.3, random_state=42, stratify=y)`, and
`fitEval` abstracts fitting on the train part and scoring
`test_accuracy` on the test part. -/
def trainWithValidation (X : List D) (cvSelect : List D → P)
    (gridSelect : List D → P) (split : List D → List D × List D)
    (fitEval : P → List D → List D → ℚ) : Option (EnhancedTrace D P) :=
  if X.length < 20 then none
  else
    let cv_params := cvSelect X
    let best_params := if 30 ≤ X.length then gridSelect X else cv_params
    let parts := split X
    some
      { cv_data := X
        grid_data := if 30 ≤ X.length then some X else none
        eval_train := parts.1
        eval_test := parts.2
        best_params := best_params
        final_accuracy := fitEval best_params parts.1 parts.2 }

/-- The data-flow trace of `SimpleKNNTrainer.train_user_model`: the
split comes first (`test_size=0.25`), `_optimize_hyperparameters` is
given only `(X_train, y_train)`, the final model is fitted on the train
part and scored on the test part. -/
structure SimpleTrace (D P : Type) where
  grid_data : List D
  eval_train : List D
  eval_test : List D
  best_params : P
  test_accuracy : ℚ
deriving DecidableEq

/-- `SimpleKNNTrainer.train_user_model` after `prepare_training_data`
produced `X`. -/
def simpleTrainFlow (X : List D) (gridSelect : List D → P)
    (split : List D → List D × List D)
    (fitEval : P → List D → List D → ℚ) : SimpleTrace D P :=
  let parts := split X
  let best_params := gridSelect parts.1
  { grid_data := parts.1
    eval_train := parts.1
    eval_test := parts.2
    best_params := best_params
    test_accuracy := fitEval best_params parts.1 parts.2 }

/-! ## Negative-sample synthesis
(`KNNAuthenticator._generate_balanced_negatives` and
`EnhancedModelTrainer._generate_enhanced_negatives`)

Each strategy draws random factors and noise; the draws are explicit
arguments here.  Noise vectors stand for `np.random.normal(0, σ')`
draws — any rational is a possible draw, and on a dimension where the
floored σ' is zero the draw is necessarily `0`.  The floored standard
deviation `np.maximum(std, mean*0.1)` only scales those noise
distributions, so it does not appear in the per-sample arithmetic
(except in the enhanced outlier strategy, which uses it directly). -/

/-- Draws for one "close variant": 1-2 dimensions to perturb, a
multiplicative factor per perturbed dimension (`uniform(0.7, 1.3)`), and
a noise vector (`normal(0, std*0.4)`). -/
structure CloseDraw where
  idxs : List (Fin 6)
  factor : Fin 6 → ℚ
  noise : V

/-- One close variant: perturb the chosen dimensions of the mean, add
noise, floor at `mean * 0.1`. -/
def closeVariant (mean : V) (d : CloseDraw) : V :=
  fun i =>
    max ((if i ∈ d.idxs then mean i * d.factor i else mean i) + d.noise i)
      (mean i * (1/10))

/-- Draws for one "different style" variant: a coherent factor profile
(faster or slower typist) and a noise vector (`normal(0, std*0.3)`). -/
structure StyleDraw where
  factors : Fin 6 → ℚ
  noise : V

/-- One style variant: scale the whole mean profile, add noise, floor at
`mean * 0.05`. -/
def styleVariant (mean : V) (d : StyleDraw) : V :=
  fun i => max (mean i * d.factors i + d.noise i) (mean i * (1/20))

/-- Draws for one "moderately far" variant: factors `uniform(0.4, 2.5)`
per dimension and a noise vector (`normal(0, std*0.6)`). -/
structure FarDraw where
  factors : Fin 6 → ℚ
  noise : V

/-- One far variant: scale the mean, add noise, floor at `mean * 0.02`. -/
def farVariant (mean : V) (d : FarDraw) : V :=
  fun i => max (mean i * d.factors i + d.noise i) (mean i * (1/50))

/-- `KNNAuthenticator._generate_balanced_negatives`: the three
strategies applied to the positive mean (the source draws
`int(n*0.4)` close, `int(n*0.4)` style and the rest far variants; the
draw lists carry those counts). -/
def generateBalancedNegatives (X_positive : List V) (cds : List CloseDraw)
    (sds : List StyleDraw) (fds : List FarDraw) : List V :=
  let mean := colMean X_positive
  cds.map (closeVariant mean) ++ sds.map (styleVariant mean) ++
    fds.map (farVariant mean)

/-- Draws for one enhanced "statistical outlier": a `±1` direction per
dimension and a magnitude `uniform(2, 4)`. -/
structure OutlierDraw where
  direction : Fin 6 → ℚ
  magnitude : ℚ

/-- One outlier variant: `mean + direction * magnitude * std’`, floored
at `mean * 0.01` (`std’` is the floored standard deviation). -/
def outlierVariant (mean std' : V) (d : OutlierDraw) : V :=
  fun i => max (mean i + d.direction i * d.magnitude * std' i) (mean i * (1/100))

/-- The factor table of the enhanced "opposite pattern" strategy:
per dimension, `np.random.choice` picks one of two fixed factors. -/
def oppositeFactor (i : Fin 6) (pick : Bool) : ℚ :=
  if i = 0 ∨ i = 2 then (if pick then 4 else 1/5)
  else if i = 1 ∨ i = 3 then (if pick then 3 else 1/10)
  else if i = 4 then (if pick then 3 else 3/10)
  else (if pick then 5/2 else 2/5)

/-- Draws for one opposite-pattern variant: 2-3 dimensions to invert and
the factor choice per dimension. -/
structure OppositeDraw where
  idxs : List (Fin 6)
  pick : Fin 6 → Bool

/-- One opposite-pattern variant: selected dimensions of the mean are
scaled by the chosen table factor; no noise and no floor are applied. -/
def oppositeVariant (mean : V) (d : OppositeDraw) : V :=
  fun i => if i ∈ d.idxs then mean i * oppositeFactor i (d.pick i) else mean i

/-- Draws for one enhanced "noise variation": the sampled noise vector
(gaussian, uniform or exponential — all abstracted as the draw). -/
structure NoiseDraw where
  noise : V

/-- One noise variant: `mean + noise`, floored at `mean * 0.05`. -/
def noiseVariant (mean : V) (d : NoiseDraw) : V :=
  fun i => max (mean i + d.noise i) (mean i * (1/20))

/-- Draws for one "inter-class boundary" variant: Dirichlet-weighted
indices into the positive set and a directed-noise vector. -/
structure BoundaryDraw where
  idxWeights : List (ℕ × ℚ)
  noise : V

/-- One boundary variant: a weighted combination of positive rows plus
noise, floored at `mean * 0.02`. -/
def boundaryVariant (X_positive : List V) (mean : V) (d : BoundaryDraw) : V :=
  fun i =>
    max ((d.idxWeights.map
      (fun jw => jw.2 * ((X_positive.getD jw.1 (fun _ => 0)) i))).sum + d.noise i)
      (mean i * (1/50))

/-- `EnhancedModelTrainer._generate_enhanced_negatives`: the four
strategies applied to the positive mean and floored std. -/
def generateEnhancedNegatives (rsqrt : ℚ → ℚ) (X_positive : List V)
    (ods : List OutlierDraw) (pds : List OppositeDraw)
    (nds : List NoiseDraw) (bds : List BoundaryDraw) : List V :=
  let mean := colMean X_positive
  let std' := fun i => max (rsqrt (colVar X_positive i)) (mean i * (1/10))
  ods.map (outlierVariant mean std') ++ pds.map (oppositeVariant mean) ++
    nds.map (noiseVariant mean) ++ bds.map (boundaryVariant X_positive mean)

/-! ## State threading for the frame claim

`KNNAuthenticator.authenticate` and
`EnhancedModelTrainer.predict_with_confidence` only read object
attributes (`self.model`, `self.training_data`,
`self.normalization_stats`, `self.scaler`, `self.best_model`); neither
method contains an attribute assignment, so their effect on the object,
statement by statement, is the identity.  The state-passing embeddings
return the object alongside the result. -/

/-- `KNNAuthenticator.authenticate` with the object threaded through. -/
def knnAuthenticateS (rsqrt rexp : ℚ → ℚ) (m : KNNModel) (features : V)
    (threshold : ℚ) : Option AuthResult × KNNModel :=
  (knnAuthenticate rsqrt rexp m features threshold, m)

/-- `predict_with_confidence` with the object threaded through. -/
def predictWithConfidenceS (rsqrt : ℚ → ℚ) (m : EnhancedModel) (features : V) :
    (Bool × ℚ) × EnhancedModel :=
  (predictWithConfidence rsqrt m features, m)

/-! ## Concrete instances used by the witnesses and counterexamples -/

/-- The constant feature vector. -/
def vconst (q : ℚ) : V := fun _ => q

/-- A trained basic model used to instantiate the C1 witness. -/
def basicModelW : KNNModel :=
  { is_trained := true
    training_data := [vconst 1, vconst 2]
    raw_prob := fun _ => 1/2
    has_genuine_class := true
    normalization_stats := none }

/-- The enhanced model refuting C1 as stated: three fitted points with
labels `[1, 1, 0]`, `k = 3`, uniform weighting (a `best_params` choice
the grid search offers), identity scaler. -/
def enhancedModelC1 : EnhancedModel :=
  { scaler_mean := vconst 0
    scaler_scale := vconst 1
    points := [vconst 0, vconst 1, vconst 10]
    labels := [1, 1, 0]
    n_neighbors := 3
    uniform_weights := true
    two_classes := true }

/-- The enhanced model refuting C2 as stated: four fitted points with
labels `[1, 1, 1, 0]`, `k = 3`, uniform weighting, identity scaler. -/
def enhancedModelC2 : EnhancedModel :=
  { scaler_mean := vconst 0
    scaler_scale := vconst 1
    points := [vconst 0, vconst 1, vconst 2, vconst 10]
    labels := [1, 1, 1, 0]
    n_neighbors := 3
    uniform_weights := true
    two_classes := true }

/-- A trained basic model used in the C4 theorems. -/
def basicModelC4 : KNNModel :=
  { is_trained := true
    training_data := [vconst 1, vconst 2]
    raw_prob := fun _ => 1/2
    has_genuine_class := true
    normalization_stats := some (vconst 0, vconst 1) }

/-- The amended claim's closed form for the per-dimension penalty: a sum
of clamped linear ramps — slope `0.05`/σ over `[1σ, 2σ]`, slope `0.1`/σ
over `[2σ, 3σ]`, slope `0.15`/σ over `[3σ, 5σ]` — capped at `0.3`. -/
def pSpecRamp (z : ℚ) : ℚ :=
  min ((1/20) * min (max (z - 1) 0) 1 + (1/10) * min (max (z - 2) 0) 1 +
    (3/20) * min (max (z - 3) 0) 2) (3/10)

/-- The trained model probing C5: its stored training data has
column mean `0` and column std `1` in every dimension, so a constant
scored vector `z` has z-score exactly `z` in all six dimensions. -/
def basicModelC5 : KNNModel :=
  { is_trained := true
    training_data := [vconst (-1), vconst 1]
    raw_prob := fun _ => 1/2
    has_genuine_class := true
    normalization_stats := none }

/-- The `feature_score` reported by `authenticate` on `basicModelC5` for
the constant vector `z` (z-score `z` in every dimension).  The identity
square-root oracle is exact here: the only variance is `1`. -/
def featurePenaltyProbe (z : ℚ) : ℚ :=
  featureScoreOf (knnAuthenticate (fun q => q) (fun _ => 1) basicModelC5
    (vconst z) (3/4))

/-- A concrete 30-row dataset, rows identified by index. -/
def c6Data : List ℕ := List.range 30

/-- A concrete 21/9 train-test split. -/
def c6Split (l : List ℕ) : List ℕ × List ℕ := (l.take 21, l.drop 21)

/-- A concrete search oracle: parameters identified with the size of the
dataset the search was fitted on. -/
def c6GridA (l : List ℕ) : ℕ := l.length

/-- A second search oracle, identical to `c6GridA` on every dataset of
fewer than 30 rows (in particular on the training partition and the
held-out partition) but not on the full dataset. -/
def c6GridB (l : List ℕ) : ℕ := if l.length = 30 then 99 else l.length

/-- A concrete cross-validation selection oracle. -/
def c6CV (l : List ℕ) : ℕ := l.length

/-- A concrete fit-and-evaluate oracle. -/
def c6FitEval (_p : ℕ) (_tr _te : List ℕ) : ℚ := 0

/-- A positive set (5 identical rows) whose `std_dwell_time` column —
dimension 1 — is identically `0`, so its mean and deviation are `0`. -/
def XzeroStd : List V :=
  List.replicate 5 (fun i => if i = 1 then 0 else 1)

/-- A legal draw for one close variant on `XzeroStd`: perturb dimension
`0` by factor `0.7 ∈ [0.7, 1.3]`; the normal noise on the zero-deviation
dimension 1 is necessarily `0` (its σ is `0`), and `0` is likewise a
possible draw on every other dimension. -/
def cdZero : CloseDraw := ⟨[0], fun _ => 7/10, fun _ => 0⟩

lemma evalFP_antitone (impostors : List ℚ) {t₁ t₂ : ℚ} (h : t₁ ≤ t₂) :
    evalFP impostors t₂ ≤ evalFP impostors t₁ := by
  exact List.countP_mono_left (fun s _ hs => by
    simp only [decide_eq_true_eq] at hs ⊢; exact le_trans h hs)

lemma evalTP_antitone (legitimate : List ℚ) {t₁ t₂ : ℚ} (h : t₁ ≤ t₂) :
    evalTP legitimate t₂ ≤ evalTP legitimate t₁ := by
  exact List.countP_mono_left (fun s _ hs => by
    simp only [decide_eq_true_eq] at hs ⊢; exact le_trans h hs)

lemma le_clip (x lo hi : ℚ) : lo ≤ clip x lo hi := le_max_left _ _

lemma clip_le {lo hi : ℚ} (h : lo ≤ hi) (x : ℚ) : clip x lo hi ≤ hi :=
  max_le h (min_le_right _ _)

/-! ## Claim C1 -/

/-- C1 (amended): for the fusion authenticator
`KNNAuthenticator.authenticate`, on every trained model, every feature
vector and every threshold, `accepted = true` exactly when the reported
final confidence is `≥ threshold`. -/
theorem knn_authenticate_accept_iff_threshold (rsqrt rexp : ℚ → ℚ)
    (m : KNNModel) (features : V) (threshold : ℚ)
    (h : m.is_trained = true) :
    acceptedOf (knnAuthenticate rsqrt rexp m features threshold) = true ↔
      threshold ≤ confidenceOf (knnAuthenticate rsqrt rexp m features threshold) := by
  rw [knnAuthenticate]
  simp [h, acceptedOf, confidenceOf]

/-- Witness for C1: the amended equivalence at a concrete trained model,
feature vector and threshold. -/
theorem knn_authenticate_accept_iff_threshold_witness :
    acceptedOf (knnAuthenticate qsqrt (fun _ => 1) basicModelW (vconst 1) (3/4)) =
        true ↔
      3/4 ≤ confidenceOf
        (knnAuthenticate qsqrt (fun _ => 1) basicModelW (vconst 1) (3/4)) :=
  knn_authenticate_accept_iff_threshold qsqrt (fun _ => 1) basicModelW
    (vconst 1) (3/4) rfl

/-- Counterexample to C1 as stated: for an enhanced trained model,
`ModelManager.authenticate_user_detailed` decides by the KNN class vote
(`bool(prediction)`), not by comparing the reported confidence with the
threshold: here the attempt is accepted while the reported final
confidence `2/3` is below the reported threshold
`THRESHOLD_ACCURACY = 0.75`. -/
theorem enhanced_accept_below_threshold :
    authenticateUserDetailed qsqrt (fun _ => 1) (.enhanced enhancedModelC1)
        (vconst 0) = some (true, 2/3) ∧
      ¬ THRESHOLD_ACCURACY ≤ 2/3 := by
  constructor
  · norm_num [authenticateUserDetailed, predictWithConfidence, probaOne,
      scalerTransform, kNearest, sortByKey, insertByKey, sqDist, vconst,
      enhancedModelC1, Fin.sum_univ_six, List.zip, List.countP,
      List.countP.go, Bool.cond_eq_ite, beq_iff_eq]
  · rw [THRESHOLD_ACCURACY]; norm_num

/-! ## Claim C2 -/

/-- C2 (amended): the final confidence reported by the fusion
authenticator `KNNAuthenticator.authenticate` lies in `[0.05, 0.95]`
for every trained model and every feature vector (the enhanced path
reports the raw KNN posterior instead, which ranges over `[0, 1]`). -/
theorem knn_final_confidence_bounds (rsqrt rexp : ℚ → ℚ) (m : KNNModel)
    (features : V) (threshold : ℚ) (h : m.is_trained = true) :
    1/20 ≤ confidenceOf (knnAuthenticate rsqrt rexp m features threshold) ∧
      confidenceOf (knnAuthenticate rsqrt rexp m features threshold) ≤ 19/20 := by
  rw [knnAuthenticate]
  simp only [h, Bool.true_eq_false, if_false, confidenceOf, Option.elim_some]
  exact ⟨le_clip _ _ _, clip_le (by norm_num) _⟩

/-- Witness for C2: the bounds at a concrete trained model and vector. -/
theorem knn_final_confidence_bounds_witness :
    1/20 ≤ confidenceOf
        (knnAuthenticate qsqrt (fun _ => 1) basicModelW (vconst 3) (3/4)) ∧
      confidenceOf (knnAuthenticate qsqrt (fun _ => 1) basicModelW (vconst 3) (3/4)) ≤
        19/20 :=
  knn_final_confidence_bounds qsqrt (fun _ => 1) basicModelW (vconst 3) (3/4) rfl

/-- Counterexample to C2 as stated: for an enhanced trained model the
reported final confidence is the raw KNN posterior, which reaches `1`
(all three neighbors genuine) — outside `[0.05, 0.95]`. -/
theorem enhanced_confidence_exceeds_bounds :
    authenticateUserDetailed qsqrt (fun _ => 1) (.enhanced enhancedModelC2)
        (vconst 0) = some (true, 1) ∧
      ¬ (1 : ℚ) ≤ 19/20 := by
  constructor
  · norm_num [authenticateUserDetailed, predictWithConfidence, probaOne,
      scalerTransform, kNearest, sortByKey, insertByKey, sqDist, vconst,
      enhancedModelC2, Fin.sum_univ_six, List.zip, List.countP,
      List.countP.go, Bool.cond_eq_ite, beq_iff_eq]
  · norm_num

/-! ## Claim C3 -/

/-- C3: for every list of genuine samples shorter than
`MIN_TRAINING_SAMPLES` (50), `ModelManager.train_user_model` fails with
the insufficient-data message — `success = false`, accuracy `0`, and no
model is produced or persisted — before any trainer runs. -/
theorem train_user_model_insufficient_data {α M : Type} (samples : List α)
    (pipeline : List α → TrainOutcome M)
    (h : samples.length < MIN_TRAINING_SAMPLES) :
    trainUserModel samples pipeline =
      { success := false, accuracy := 0, insufficient_data := true,
        persisted := none } := by
  simp [trainUserModel, h]

/-- Witness for C3: training on 10 samples (min = 50) returns the
insufficient-data failure with no persisted model. -/
theorem train_user_model_insufficient_data_witness :
    trainUserModel (List.range 10)
        (fun _ => (⟨true, 1, false, some ()⟩ : TrainOutcome Unit)) =
      { success := false, accuracy := 0, insufficient_data := true,
        persisted := none } :=
  train_user_model_insufficient_data (List.range 10) _ (by decide)

/-! ## Claim C4 -/

/-- Counterexample to C4 as stated: a degenerate all-zero capture is not
rejected — `finish_recording` returns the explicit all-zero dict (and
saves it to the DB as a training sample), and `authenticate` forwards it
to the scoring pipeline, which scores it like any other vector
(the call yields a scored result, not an error). -/
theorem zero_sentinel_scored :
    finishRecording (some zeroFeatures) true = (zeroFeatures, true) ∧
      (keystrokeAuthenticate qsqrt (fun _ => 1) true (.basic basicModelC4)
        zeroFeatures).isSome = true := by
  constructor
  · simp [finishRecording, zeroFeatures]
  · rfl

/-- C4 (amended): a degenerate capture (empty or all-zero features) is
detected by `finish_recording` but only logged: the explicit all-zero
dict is substituted, returned to the caller, and saved to the DB
whenever the sample is a training sample; `authenticate` performs no
emptiness check, so the zero sentinel of a trained user is scored by the
pipeline like any other vector. -/
theorem degenerate_capture_coerced_and_scored (computed : Option V)
    (is_training : Bool) (rsqrt rexp : ℚ → ℚ) (m : KNNModel)
    (hdeg : ∀ f, computed = some f → ∀ i, f i = 0)
    (hm : m.is_trained = true) :
    finishRecording computed is_training = (zeroFeatures, is_training) ∧
      (keystrokeAuthenticate rsqrt rexp true (.basic m)
        zeroFeatures).isSome = true := by
  constructor
  · cases hc : computed with
    | none => simp [finishRecording]
    | some f =>
      have hf : ∀ i, f i = 0 := hdeg f hc
      simp [finishRecording, hf]
  · rw [keystrokeAuthenticate]
    cases hns : m.normalization_stats with
    | none => simp [authenticateUserDetailed, hns, knnAuthenticate, hm]
    | some ns => simp [authenticateUserDetailed, hns, knnAuthenticate, hm]

/-- Witness for C4: the amended behavior at a concrete degenerate
capture and a concrete trained model. -/
theorem degenerate_capture_coerced_and_scored_witness :
    finishRecording none false = (zeroFeatures, false) ∧
      (keystrokeAuthenticate qsqrt (fun _ => 2) true (.basic basicModelC4)
        zeroFeatures).isSome = true :=
  degenerate_capture_coerced_and_scored none false qsqrt (fun _ => 2)
    basicModelC4 (fun _ h => nomatch h) rfl

/-! ## Claim C5 -/

lemma penaltyOfZ_eq_ramp (z : ℚ) : penaltyOfZ z = pSpecRamp z := by
  have m01 : (0:ℚ) ⊓ 1 = 0 := min_eq_left (by norm_num)
  have m02 : (0:ℚ) ⊓ 2 = 0 := min_eq_left (by norm_num)
  unfold penaltyOfZ pSpecRamp
  rcases le_or_lt z 1 with h1 | h1
  · rw [if_pos h1, max_eq_right (by linarith : z - 1 ≤ 0),
      max_eq_right (by linarith : z - 2 ≤ 0),
      max_eq_right (by linarith : z - 3 ≤ 0)]
    norm_num
  · rw [if_neg (not_le.mpr h1)]
    rcases le_or_lt z 2 with h2 | h2
    · rw [if_pos h2, max_eq_left (by linarith : (0:ℚ) ≤ z - 1),
        min_eq_left (by linarith : z - 1 ≤ 1),
        max_eq_right (by linarith : z - 2 ≤ 0),
        max_eq_right (by linarith : z - 3 ≤ 0), m01, m02]
      ring_nf
    · rw [if_neg (not_le.mpr h2)]
      rcases le_or_lt z 3 with h3 | h3
      · rw [if_pos h3, max_eq_left (by linarith : (0:ℚ) ≤ z - 1),
          min_eq_right (by linarith : (1:ℚ) ≤ z - 1),
          max_eq_left (by linarith : (0:ℚ) ≤ z - 2),
          min_eq_left (by linarith : z - 2 ≤ 1),
          max_eq_right (by linarith : z - 3 ≤ 0), m02]
        ring_nf
      · rw [if_neg (not_le.mpr h3), max_eq_left (by linarith : (0:ℚ) ≤ z - 1),
          min_eq_right (by linarith : (1:ℚ) ≤ z - 1),
          max_eq_left (by linarith : (0:ℚ) ≤ z - 2),
          min_eq_right (by linarith : (1:ℚ) ≤ z - 2),
          max_eq_left (by linarith : (0:ℚ) ≤ z - 3)]
        ring_nf

/-- C5 (amended): the `feature_score` component reported by
`authenticate` is `1.0` minus the mean over the 6 dimensions of a
penalty of the per-dimension z-score of the scored vector against the
stored training data's mean and std, floored at `0.2`; the penalty is
`0` within `1σ` and then *piecewise*-linear — slope `0.05`/σ on
`[1σ, 2σ]`, `0.1`/σ on `[2σ, 3σ]` and `0.15`/σ beyond — capped at `0.3`
per dimension (a zero-variance dimension contributes `0`). -/
theorem feature_score_piecewise_ramp (rsqrt rexp : ℚ → ℚ) (m : KNNModel)
    (features : V) (threshold : ℚ) (h : m.is_trained = true) :
    featureScoreOf (knnAuthenticate rsqrt rexp m features threshold) =
      max (1/5) (1 - (∑ i : Fin 6,
        if 0 < trainStd rsqrt m.training_data i then
          pSpecRamp (|features i - colMean m.training_data i| /
            trainStd rsqrt m.training_data i)
        else 0) / 6) := by
  have hne : ¬ m.is_trained = false := by simp [h]
  rw [knnAuthenticate, if_neg hne]
  show featureScore rsqrt m.training_data features = _
  have hsum : (∑ i : Fin 6, dimPenalty rsqrt m.training_data features i) =
      ∑ i : Fin 6,
        if 0 < trainStd rsqrt m.training_data i then
          pSpecRamp (|features i - colMean m.training_data i| /
            trainStd rsqrt m.training_data i)
        else 0 := by
    refine Finset.sum_congr rfl (fun i _ => ?_)
    rw [dimPenalty]
    split
    · rw [penaltyOfZ_eq_ramp]
    · rfl
  rw [featureScore, hsum]

/-- Witness for C5: the amended characterization at a concrete trained
model and feature vector. -/
theorem feature_score_piecewise_ramp_witness :
    featureScoreOf (knnAuthenticate qsqrt (fun _ => 1) basicModelW
        (vconst 2) (3/4)) =
      max (1/5) (1 - (∑ i : Fin 6,
        if 0 < trainStd qsqrt basicModelW.training_data i then
          pSpecRamp (|vconst 2 i - colMean basicModelW.training_data i| /
            trainStd qsqrt basicModelW.training_data i)
        else 0) / 6) :=
  feature_score_piecewise_ramp qsqrt (fun _ => 1) basicModelW (vconst 2)
    (3/4) rfl

/-- Counterexample to C5 as stated: were the penalty linear on
`[1σ, 3σ]` (and `0` within `1σ`), the reported `feature_score` would
drop by equal amounts from z-score `1` to `2` and from `2` to `3`
(no cap or floor is active there).  The code drops it by `1/20` and then
by `1/10`. -/
theorem feature_penalty_not_linear :
    featurePenaltyProbe 1 - featurePenaltyProbe 2 ≠
      featurePenaltyProbe 2 - featurePenaltyProbe 3 := by
  norm_num [featurePenaltyProbe, featureScoreOf, knnAuthenticate,
    basicModelC5, featureScore, dimPenalty, trainStd, colVar, colMean,
    listMean, penaltyOfZ, vconst, Fin.sum_univ_six]

/-! ## Claim C7 -/

/-- C7: for a fixed list of scored attempts with non-empty genuine and
impostor classes, the evaluator's `FAR(t)` (fraction of impostor-labeled
attempts with score ≥ t) is non-increasing and `FRR(t)` (fraction of
genuine-labeled attempts with score < t) is non-decreasing as the
threshold grows — in particular over the sweep grid of
`analyze_system`. -/
theorem far_antitone_frr_monotone (legitimate impostors : List ℚ)
    (hleg : legitimate ≠ []) (himp : impostors ≠ []) {t₁ t₂ : ℚ}
    (h : t₁ ≤ t₂) :
    evalFAR impostors t₂ ≤ evalFAR impostors t₁ ∧
      evalFRR legitimate t₁ ≤ evalFRR legitimate t₂ := by
  have himp' : impostors.isEmpty = false := by
    simpa [List.isEmpty_iff] using himp
  have hleg' : legitimate.isEmpty = false := by
    simpa [List.isEmpty_iff] using hleg
  have himplen : (0 : ℚ) < (impostors.length : ℚ) := by
    exact_mod_cast List.length_pos.mpr himp
  have hleglen : (0 : ℚ) < (legitimate.length : ℚ) := by
    exact_mod_cast List.length_pos.mpr hleg
  constructor
  · rw [evalFAR, evalFAR, himp', if_neg (by simp), if_neg (by simp)]
    have hfp : (evalFP impostors t₂ : ℚ) ≤ (evalFP impostors t₁ : ℚ) := by
      exact_mod_cast evalFP_antitone impostors h
    exact mul_le_mul_of_nonneg_right
      ((div_le_div_iff_of_pos_right himplen).mpr hfp) (by norm_num)
  · rw [evalFRR, evalFRR, hleg', if_neg (by simp), if_neg (by simp)]
    have htp := evalTP_antitone legitimate h
    have hfn : (evalFN legitimate t₁ : ℚ) ≤ (evalFN legitimate t₂ : ℚ) := by
      exact_mod_cast Nat.sub_le_sub_left htp legitimate.length
    exact mul_le_mul_of_nonneg_right
      ((div_le_div_iff_of_pos_right hleglen).mpr hfn) (by norm_num)

/-- Witness for C7: on a concrete scored dataset and thresholds
`0.25 ≤ 0.5`, FAR does not increase and FRR does not decrease. -/
theorem far_antitone_frr_monotone_witness :
    evalFAR [1/5, 3/10] (1/2) ≤ evalFAR [1/5, 3/10] (1/4) ∧
      evalFRR [4/5, 7/10] (1/4) ≤ evalFRR [4/5, 7/10] (1/2) :=
  far_antitone_frr_monotone [4/5, 7/10] [1/5, 3/10] (by decide) (by decide)
    (by norm_num)

/-! ## Claim C6 -/

/-- C6 (amended): in `SimpleKNNTrainer.train_user_model` the
hyperparameter search uses only the training partition — the outcome
depends on the search oracle only through its value at the training
partition; in `EnhancedModelTrainer.train_with_validation`, whenever the
grid search runs (`len(X) ≥ 30`), it is fitted on the full dataset `X`,
before the held-out split of `detailed_evaluation`, so the held-out rows
are part of its data. -/
theorem search_data_flow {D P : Type} (X : List D)
    (split : List D → List D × List D) (fitEval : P → List D → List D → ℚ)
    (cv g₁ g₂ : List D → P) (h30 : 30 ≤ X.length)
    (hagree : g₁ (split X).1 = g₂ (split X).1) :
    simpleTrainFlow X g₁ split fitEval = simpleTrainFlow X g₂ split fitEval ∧
      (trainWithValidation X cv g₁ split fitEval).map EnhancedTrace.grid_data =
        some (some X) := by
  constructor
  · simp [simpleTrainFlow, hagree]
  · have h20 : ¬ X.length < 20 := by omega
    simp [trainWithValidation, h20, h30]

/-- Witness for C6: the amended data-flow facts at concrete oracles and
a concrete 30-row dataset. -/
theorem search_data_flow_witness :
    simpleTrainFlow c6Data c6GridA c6Split c6FitEval =
        simpleTrainFlow c6Data c6GridB c6Split c6FitEval ∧
      (trainWithValidation c6Data c6CV c6GridA c6Split c6FitEval).map
          EnhancedTrace.grid_data = some (some c6Data) :=
  search_data_flow c6Data c6Split c6FitEval c6CV c6GridA c6GridB
    (by decide) (by decide)

/-- Counterexample to C6 as stated: two hyperparameter searches that
agree on the training partition (and on the held-out partition) select
different parameters in `train_with_validation`, because the grid search
is fitted on the full dataset — the held-out test partition does take
part in selecting the hyperparameters. -/
theorem grid_search_sees_heldout :
    c6GridA (c6Split c6Data).1 = c6GridB (c6Split c6Data).1 ∧
      c6GridA (c6Split c6Data).2 = c6GridB (c6Split c6Data).2 ∧
      (trainWithValidation c6Data c6CV c6GridA c6Split c6FitEval).map
          EnhancedTrace.best_params ≠
        (trainWithValidation c6Data c6CV c6GridB c6Split c6FitEval).map
          EnhancedTrace.best_params := by
  refine ⟨by decide, by decide, ?_⟩
  decide

/-! ## Claim C8 -/

lemma oppositeFactor_pos (i : Fin 6) (b : Bool) : 0 < oppositeFactor i b := by
  rw [oppositeFactor]
  split_ifs <;> norm_num

/-- C8 (amended): whenever the componentwise mean of the positive
feature vectors is strictly positive, every synthesized negative vector
— from both `_generate_balanced_negatives` and
`_generate_enhanced_negatives`, whatever the random draws — has all six
components strictly greater than `0`. -/
theorem negatives_positive_of_mean_pos (X : List V) (rsqrt : ℚ → ℚ)
    (cds : List CloseDraw) (sds : List StyleDraw) (fds : List FarDraw)
    (ods : List OutlierDraw) (pds : List OppositeDraw) (nds : List NoiseDraw)
    (bds : List BoundaryDraw) (hmean : ∀ i, 0 < colMean X i) :
    (∀ v ∈ generateBalancedNegatives X cds sds fds, ∀ i, 0 < v i) ∧
      (∀ v ∈ generateEnhancedNegatives rsqrt X ods pds nds bds, ∀ i, 0 < v i) := by
  constructor
  · intro v hv i
    rw [generateBalancedNegatives] at hv
    rcases List.mem_append.mp hv with hv' | hv'
    · rcases List.mem_append.mp hv' with hc | hs
      · obtain ⟨d, _, rfl⟩ := List.mem_map.mp hc
        exact lt_max_of_lt_right (mul_pos (hmean i) (by norm_num))
      · obtain ⟨d, _, rfl⟩ := List.mem_map.mp hs
        exact lt_max_of_lt_right (mul_pos (hmean i) (by norm_num))
    · obtain ⟨d, _, rfl⟩ := List.mem_map.mp hv'
      exact lt_max_of_lt_right (mul_pos (hmean i) (by norm_num))
  · intro v hv i
    rw [generateEnhancedNegatives] at hv
    rcases List.mem_append.mp hv with hv' | hb
    · rcases List.mem_append.mp hv' with hv'' | hn
      · rcases List.mem_append.mp hv'' with ho | hp
        · obtain ⟨d, _, rfl⟩ := List.mem_map.mp ho
          exact lt_max_of_lt_right (mul_pos (hmean i) (by norm_num))
        · obtain ⟨d, _, rfl⟩ := List.mem_map.mp hp
          rw [oppositeVariant]
          split
          · exact mul_pos (hmean i) (oppositeFactor_pos i (d.pick i))
          · exact hmean i
      · obtain ⟨d, _, rfl⟩ := List.mem_map.mp hn
        exact lt_max_of_lt_right (mul_pos (hmean i) (by norm_num))
    · obtain ⟨d, _, rfl⟩ := List.mem_map.mp hb
      exact lt_max_of_lt_right (mul_pos (hmean i) (by norm_num))

/-- Witness for C8: the amended positivity at a concrete positive set
(all-ones row, componentwise mean `1`) and one concrete draw of every
strategy. -/
theorem negatives_positive_of_mean_pos_witness :
    (∀ v ∈ generateBalancedNegatives [vconst 1]
        [⟨[0], fun _ => 1, fun _ => 0⟩] [⟨fun _ => 1, fun _ => 0⟩]
        [⟨fun _ => 1, fun _ => 0⟩], ∀ i, 0 < v i) ∧
      (∀ v ∈ generateEnhancedNegatives qsqrt [vconst 1]
        [⟨fun _ => 1, 2⟩] [⟨[0], fun _ => true⟩] [⟨fun _ => 0⟩]
        [⟨[(0, 1)], fun _ => 0⟩], ∀ i, 0 < v i) :=
  negatives_positive_of_mean_pos [vconst 1] qsqrt
    [⟨[0], fun _ => 1, fun _ => 0⟩] [⟨fun _ => 1, fun _ => 0⟩]
    [⟨fun _ => 1, fun _ => 0⟩] [⟨fun _ => 1, 2⟩] [⟨[0], fun _ => true⟩]
    [⟨fun _ => 0⟩] [⟨[(0, 1)], fun _ => 0⟩]
    (fun i => by norm_num [colMean, listMean, vconst])

/-- Counterexample to C8 as stated: on a positive set whose
`std_dwell_time` column is identically zero, the first synthesized
"close" negative has component 1 equal to `0` — not strictly positive
(the `mean * 0.1` floor is `0` there). -/
theorem negative_component_zero :
    ((generateBalancedNegatives XzeroStd [cdZero] [] []).headD (vconst 5)) 1 = 0 ∧
      (generateBalancedNegatives XzeroStd [cdZero] [] []).length = 1 := by
  constructor
  · norm_num [generateBalancedNegatives, closeVariant, cdZero, XzeroStd,
      colMean, listMean, vconst, List.replicate]
  · rfl

/-! ## Claim C9 -/

/-- C9: a scoring call mutates nothing: both
`KNNAuthenticator.authenticate` and
`EnhancedModelTrainer.predict_with_confidence` leave the model object —
classifier state, stored genuine training data, and normalization
statistics — exactly as it was. -/
theorem authenticate_performs_no_mutation (rsqrt rexp : ℚ → ℚ)
    (m : KNNModel) (em : EnhancedModel) (features : V) (threshold : ℚ) :
    (knnAuthenticateS rsqrt rexp m features threshold).2 = m ∧
      (knnAuthenticateS rsqrt rexp m features threshold).2.training_data =
        m.training_data ∧
      (knnAuthenticateS rsqrt rexp m features threshold).2.normalization_stats =
        m.normalization_stats ∧
      (predictWithConfidenceS rsqrt em features).2 = em :=
  ⟨rfl, rfl, rfl, rfl⟩

/-! ## Claim C10 -/

/-- C10: the sub-score computations of `authenticate` never divide by
zero: the normalized-distance denominator `mean_train_distance + 1e-6`
is strictly positive for every model, and each dimension of the feature
analysis either has a strictly positive training standard deviation
(the only case in which a z-score is formed) or contributes a penalty of
exactly `0`. -/
theorem authenticate_no_division_by_zero (rsqrt : ℚ → ℚ)
    (m : KNNModel) (features : V) :
    0 < normDistDenom rsqrt m.training_data ∧
      ∀ i : Fin 6, 0 < trainStd rsqrt m.training_data i ∨
        dimPenalty rsqrt m.training_data features i = 0 := by
  constructor
  · rw [normDistDenom, meanTrainDistance]
    have hmean : ∀ (l : List ℚ), 0 ≤ listMean (l.filter (fun d => 0 < d)) := by
      intro l
      apply div_nonneg _ (by positivity)
      apply List.sum_nonneg
      intro x hx
      have := List.of_mem_filter hx
      exact le_of_lt (by simpa using this)
    split
    · have := hmean (pairwiseDists rsqrt m.training_data)
      linarith
    · norm_num
  · intro i
    by_cases hs : 0 < trainStd rsqrt m.training_data i
    · exact Or.inl hs
    · exact Or.inr (by simp [dimPenalty, hs])

end Keystroke
